import Mathlib

/-!
Shallow embedding of the WS402 session-lifecycle core (src/WS402.ts and
src/types.ts): session data model, config resolution, the metering tick
(updateUsage), settlement (endSession), payment verification handling
(handleConnection's post-proof phase), and the bounded proof wait
(waitForPaymentProof).

Modelling conventions:
  * JS numbers are modelled as exact rationals (amounts, prices) and
    integers (millisecond timestamps, counters).
  * Math.floor((now - startTime) / 1000) is modelled as integer division
    by 1000: Lean's Int division is Euclidean, which coincides with the
    floor of the real division for the positive divisor 1000.
  * Side effects (messages sent on the socket, emitter events, hook
    callbacks, payment-provider calls, registry mutation) are modelled as
    an explicit trace: each operation returns the updated session together
    with the ordered list of effects it performs.
  * The asynchronous payment provider is modelled by parameters: a
    verification result for verifyPayment, and an optional error for
    issueRefund (none = the refund promise resolves, some e = it rejects
    with error e).
-/

namespace WS402

/-- Session status field: the literal union type of WS402Session.status. -/
inductive SessionStatus where
  | active
  | ended
deriving DecidableEq, Repr

/-- WS402Session from src/types.ts (the optional resourceId is omitted:
no claim concerns it; paymentProof is opaque, modelled as a string). -/
structure WS402Session where
  userId : String
  sessionId : String
  startTime : Int
  paidAmount : Rat
  consumedAmount : Rat
  elapsedSeconds : Int
  bytesTransferred : Int
  messageCount : Int
  status : SessionStatus
  paymentProof : String
  pricePerSecond : Rat
deriving DecidableEq, Repr

/-- UsageUpdate message payload from src/types.ts. -/
structure UsageUpdate where
  sessionId : String
  elapsedSeconds : Int
  consumedAmount : Rat
  remainingBalance : Rat
  bytesTransferred : Int
  messageCount : Int
deriving DecidableEq, Repr

/-- RefundDetails from src/types.ts. -/
structure RefundDetails where
  sessionId : String
  amount : Rat
  reason : String
  timestamp : Int
deriving DecidableEq, Repr

/-- PaymentVerification from src/types.ts: result of
paymentProvider.verifyPayment, with the optional resource-specific price. -/
structure PaymentVerification where
  valid : Bool
  amount : Rat
  reason : Option String
  pricePerSecond : Option Rat
deriving DecidableEq, Repr

/-- WS402Config from src/types.ts: all option fields (hooks omitted: they
are modelled as effects in the trace). -/
structure WS402Config where
  updateInterval : Option Int
  pricePerSecond : Option Rat
  currency : Option String
  maxSessionDuration : Option Int
deriving DecidableEq, Repr

/-- The Required config the constructor builds after applying defaults. -/
structure ResolvedConfig where
  updateInterval : Int
  pricePerSecond : Rat
  currency : String
  maxSessionDuration : Int
deriving DecidableEq, Repr

/-- JS `v || d` for an optional numeric field: absent or zero falls back to
the default (0 is falsy in JS). -/
def jsOrInt (o : Option Int) (d : Int) : Int :=
  match o with
  | none => d
  | some v => if v = 0 then d else v

/-- JS `v || d` for an optional rational field (0 is falsy in JS). -/
def jsOrRat (o : Option Rat) (d : Rat) : Rat :=
  match o with
  | none => d
  | some v => if v = 0 then d else v

/-- JS `v || d` for an optional string field (the empty string is falsy). -/
def jsOrStr (o : Option String) (d : String) : String :=
  match o with
  | none => d
  | some v => if v = "" then d else v

/-- Default application in the WS402 constructor (src/WS402.ts lines
29-38). -/
def resolveConfig (c : WS402Config) : ResolvedConfig :=
  { updateInterval := jsOrInt c.updateInterval 3000
    pricePerSecond := jsOrRat c.pricePerSecond 1
    currency := jsOrStr c.currency "wei"
    maxSessionDuration := jsOrInt c.maxSessionDuration 3600 }

/-- Messages the server sends to the client over the socket. -/
inductive ClientMsg where
  | payment_rejected (reason : String)
  | session_started (sessionId : String) (balance : Rat) (pricePerSecond : Rat)
  | usage_update (u : UsageUpdate)
  | balance_exhausted (message : String)
  | max_duration_reached (message : String)
deriving DecidableEq, Repr

/-- Observable side effects of the lifecycle operations, in program
order: socket sends and closes, payment-provider calls, emitter events,
hook callbacks, and registry mutations. -/
inductive Effect where
  | send (m : ClientMsg)
  | close (code : Int) (reason : String)
  | providerRefund (proof : String) (amount : Rat)
  | emitRefund (r : RefundDetails)
  | emitRefundError (s : WS402Session) (error : String)
  | emitSessionEnd (s : WS402Session)
  | emitError (message : String)
  | hookOnPaymentVerified (s : WS402Session)
  | hookOnRefundIssued (s : WS402Session) (r : RefundDetails)
  | hookOnSessionEnd (s : WS402Session)
  | registrySet (s : WS402Session)
  | registryDelete
deriving DecidableEq, Repr

/-- updateUsage (src/WS402.ts lines 192-233): one metering tick at
wall-clock time `now` (ms). Recomputes elapsed seconds from the absolute
start time, consumption from the session price, sends the usage update,
then runs the exhaustion check followed by the max-duration check.
`wsOpen` models the `ws.readyState !== WebSocket.OPEN` early return. -/
def updateUsage (cfg : ResolvedConfig) (wsOpen : Bool) (now : Int)
    (s : WS402Session) : WS402Session × List Effect :=
  if wsOpen = false then (s, []) else
  let elapsed : Int := (now - s.startTime) / 1000
  let consumed : Rat := (elapsed : Rat) * s.pricePerSecond
  let remaining : Rat := s.paidAmount - consumed
  let s' : WS402Session := { s with elapsedSeconds := elapsed, consumedAmount := consumed }
  let u : UsageUpdate :=
    { sessionId := s.sessionId
      elapsedSeconds := elapsed
      consumedAmount := consumed
      remainingBalance := remaining
      bytesTransferred := s.bytesTransferred
      messageCount := s.messageCount }
  let exhaustEffs : List Effect :=
    if remaining ≤ 0 then
      [Effect.send (ClientMsg.balance_exhausted "Prepaid balance has been fully consumed"),
       Effect.close 1000 "Balance exhausted"]
    else []
  let durationEffs : List Effect :=
    if cfg.maxSessionDuration ≤ elapsed then
      [Effect.send (ClientMsg.max_duration_reached "Maximum session duration reached"),
       Effect.close 1000 "Max duration reached"]
    else []
  (s', Effect.send (ClientMsg.usage_update u) :: (exhaustEffs ++ durationEffs))

/-- The inbound message handler (src/WS402.ts lines 144-148): adds the
byte length of the message and bumps the message counter.
Buffer.byteLength is a natural number. -/
def onMessage (s : WS402Session) (byteLength : Nat) : WS402Session :=
  { s with
    bytesTransferred := s.bytesTransferred + (byteLength : Int)
    messageCount := s.messageCount + 1 }

/-- endSession (src/WS402.ts lines 238-264): settlement. Sets status to
ended, computes the refund from the session's stored consumedAmount, calls
the provider when the amount is strictly positive (refundError = some e
models issueRefund rejecting with error e; the catch emits refund_error),
then unconditionally fires onSessionEnd, emits session_end, and removes
the session from the registry. `now` is Date.now() used only for the
refund-details timestamp. -/
def endSession (refundError : Option String) (now : Int)
    (s : WS402Session) : WS402Session × List Effect :=
  let s' : WS402Session := { s with status := SessionStatus.ended }
  let refundAmount : Rat := s'.paidAmount - s'.consumedAmount
  let refundEffs : List Effect :=
    if 0 < refundAmount then
      let refund : RefundDetails :=
        { sessionId := s'.sessionId
          amount := refundAmount
          reason := "unused_balance"
          timestamp := now }
      match refundError with
      | some e =>
        [Effect.providerRefund s'.paymentProof refundAmount,
         Effect.emitRefundError s' e]
      | none =>
        [Effect.providerRefund s'.paymentProof refundAmount,
         Effect.hookOnRefundIssued s' refund,
         Effect.emitRefund refund]
    else []
  (s', refundEffs ++
    [Effect.hookOnSessionEnd s', Effect.emitSessionEnd s', Effect.registryDelete])

/-- Both the close handler and the error handler (src/WS402.ts lines
151-160) invoke endSession for the same session; this is the trace of the
two consecutive invocations, the second acting on the session state the
first left behind. -/
def endSessionTwiceEffects (t1 t2 : Int) (s : WS402Session) : List Effect :=
  let r1 := endSession none t1 s
  let r2 := endSession none t2 r1.1
  r1.2 ++ r2.2

/-- The post-verification part of handleConnection (src/WS402.ts lines
100-136): on valid=false, send payment_rejected with the verification's
reason (JS `reason || fallback`) and close with 1008; on valid=true,
build the session (price taken from the server config, startTime = now),
register it, fire onPaymentVerified, and send session_started. -/
def handleVerification (cfg : ResolvedConfig) (userId sessionId : String)
    (now : Int) (proof : String) (v : PaymentVerification) :
    Option WS402Session × List Effect :=
  if v.valid = false then
    (none,
     [Effect.send (ClientMsg.payment_rejected (jsOrStr v.reason "Invalid payment")),
      Effect.close 1008 "Payment verification failed"])
  else
    let session : WS402Session :=
      { userId := userId
        sessionId := sessionId
        startTime := now
        paidAmount := v.amount
        consumedAmount := 0
        elapsedSeconds := 0
        bytesTransferred := 0
        messageCount := 0
        status := SessionStatus.active
        paymentProof := proof
        pricePerSecond := cfg.pricePerSecond }
    (some session,
     [Effect.registrySet session,
      Effect.hookOnPaymentVerified session,
      Effect.send (ClientMsg.session_started sessionId session.paidAmount
        session.pricePerSecond)])

/-- An inbound socket message during the proof wait, as the handler in
waitForPaymentProof classifies it: a parsed payment_proof message, some
other parsed message (ignored), or invalid JSON (ignored). -/
inductive InMsg where
  | proofMsg (proof : String)
  | otherMsg
  | invalidJson
deriving DecidableEq, Repr

/-- True when the message is a payment_proof arriving strictly before the
30000 ms timeout fires. -/
def isProofBeforeTimeout (m : Int × InMsg) : Bool :=
  match m.2 with
  | InMsg.proofMsg _ => decide (m.1 < 30000)
  | _ => false

/-- waitForPaymentProof (src/WS402.ts lines 166-187): given the inbound
messages in arrival order (paired with arrival time in ms after the wait
starts), the promise resolves with the first payment_proof arriving before
the 30000 ms timeout, and otherwise rejects with the timeout error. -/
def waitForPaymentProof (msgs : List (Int × InMsg)) : Except String String :=
  match msgs.find? isProofBeforeTimeout with
  | some (_, InMsg.proofMsg p) => Except.ok p
  | _ => Except.error "Payment proof timeout"

/-- handleConnection up to session start, including the enclosing catch in
attach (src/WS402.ts lines 47-62): a rejected proof wait is caught there,
emits an error event, and closes the socket with 1011. `verify` models
the payment provider's verifyPayment. -/
def handleConnectionModel (cfg : ResolvedConfig) (userId sessionId : String)
    (msgs : List (Int × InMsg)) (verify : String → PaymentVerification)
    (now : Int) : Option WS402Session × List Effect :=
  match waitForPaymentProof msgs with
  | Except.error e =>
    (none, [Effect.emitError e, Effect.close 1011 "Internal server error"])
  | Except.ok proof =>
    handleVerification cfg userId sessionId now proof (verify proof)

/-- Number of payment-provider refund calls in a trace. -/
def refundCallCount (effs : List Effect) : Nat :=
  effs.countP (fun e =>
    match e with
    | Effect.providerRefund _ _ => true
    | _ => false)

/-- Number of session_end events in a trace. -/
def sessionEndCount (effs : List Effect) : Nat :=
  effs.countP (fun e =>
    match e with
    | Effect.emitSessionEnd _ => true
    | _ => false)

/-- Total amount the payment provider is asked to refund over a trace. -/
def disbursedRefund (effs : List Effect) : Rat :=
  List.foldl
    (fun acc e =>
      match e with
      | Effect.providerRefund _ a => acc + a
      | _ => acc)
    0 effs

/-- True when the trace registers some session in the registry. -/
def registersSession (effs : List Effect) : Bool :=
  effs.any (fun e =>
    match e with
    | Effect.registrySet _ => true
    | _ => false)

/-- The fully-defaulted configuration (no options given). -/
def defaultConfig : WS402Config :=
  { updateInterval := none
    pricePerSecond := none
    currency := none
    maxSessionDuration := none }

/-- Resolved form of the default configuration. -/
def cfgDefault : ResolvedConfig := resolveConfig defaultConfig

/-- A session as created after a verified payment of 10 at price 1/s,
started at t = 0. -/
def sessionA : WS402Session :=
  { userId := "u"
    sessionId := "sidA"
    startTime := 0
    paidAmount := 10
    consumedAmount := 0
    elapsedSeconds := 0
    bytesTransferred := 0
    messageCount := 0
    status := SessionStatus.active
    paymentProof := "proofA"
    pricePerSecond := 1 }

/-- The state of sessionA after the periodic tick at t = 3000 ms
(stored consumedAmount = 3). -/
def sessionA_tick3000 : WS402Session := (updateUsage cfgDefault true 3000 sessionA).1

/-- A session with price 10/s that paid 10, started at t = 0. -/
def sessionB : WS402Session :=
  { userId := "u"
    sessionId := "sidB"
    startTime := 0
    paidAmount := 10
    consumedAmount := 0
    elapsedSeconds := 0
    bytesTransferred := 0
    messageCount := 0
    status := SessionStatus.active
    paymentProof := "proofB"
    pricePerSecond := 10 }

/-- The ended state of sessionB after the tick at 2000 ms (which stores
consumedAmount = 20, an overrun past the paid 10) and settlement. -/
def endedB : WS402Session :=
  (endSession none 2000 (updateUsage cfgDefault true 2000 sessionB).1).1

/-- Effect classifier used by refundCallCount. -/
theorem refundCallCount_append (l1 l2 : List Effect) :
    refundCallCount (l1 ++ l2) = refundCallCount l1 + refundCallCount l2 :=
  List.countP_append _ _ _

/-- sessionEndCount distributes over trace concatenation. -/
theorem sessionEndCount_append (l1 l2 : List Effect) :
    sessionEndCount (l1 ++ l2) = sessionEndCount l1 + sessionEndCount l2 :=
  List.countP_append _ _ _

/-- Every settlement invocation makes the provider refund call exactly
when the stored refund amount is strictly positive, independent of the
close time and of whether the refund call then fails. -/
theorem refundCallCount_endSession (o : Option String) (now : Int)
    (s : WS402Session) :
    refundCallCount (endSession o now s).2 =
      if s.consumedAmount < s.paidAmount then 1 else 0 := by
  by_cases h : s.consumedAmount < s.paidAmount
  · cases o <;> simp [endSession, refundCallCount, h]
  · cases o <;> simp [endSession, refundCallCount, h]

/-- Every settlement invocation emits session_end exactly once. -/
theorem sessionEndCount_endSession (o : Option String) (now : Int)
    (s : WS402Session) :
    sessionEndCount (endSession o now s).2 = 1 := by
  by_cases h : s.consumedAmount < s.paidAmount
  · cases o <;> simp [endSession, sessionEndCount, h]
  · cases o <;> simp [endSession, sessionEndCount, h]

/-- The amount a settlement invocation asks the provider to refund is the
clamped stored remainder, independent of the close time. -/
theorem disbursedRefund_endSession (o : Option String) (now : Int)
    (s : WS402Session) :
    disbursedRefund (endSession o now s).2 =
      max 0 (s.paidAmount - s.consumedAmount) := by
  by_cases h : s.consumedAmount < s.paidAmount
  · have hmax : max 0 (s.paidAmount - s.consumedAmount) =
        s.paidAmount - s.consumedAmount :=
      max_eq_right (by linarith)
    cases o <;> simp [endSession, disbursedRefund, h, hmax]
  · have hmax : max 0 (s.paidAmount - s.consumedAmount) = 0 :=
      max_eq_left (by linarith [not_lt.mp h])
    cases o <;> simp [endSession, disbursedRefund, h, hmax]

/-- Settlement does not change the stored amounts: only status flips. -/
theorem endSession_state (o : Option String) (now : Int) (s : WS402Session) :
    (endSession o now s).1 = { s with status := SessionStatus.ended } :=
  rfl

/-- C1: endSession has no status guard: triggering the termination path
twice for the same session (the close handler and the error handler both
invoke it) performs the provider refund call twice and emits session_end
twice, even though the session's status is already ended when the second
invocation runs. -/
theorem endSession_double_invocation_settles_twice :
    refundCallCount (endSessionTwiceEffects 2000 2100 sessionA) = 2 ∧
    sessionEndCount (endSessionTwiceEffects 2000 2100 sessionA) = 2 ∧
    (endSession none 2000 sessionA).1.status = SessionStatus.ended := by
  refine ⟨?_, ?_, rfl⟩
  · rw [endSessionTwiceEffects, refundCallCount_append,
      refundCallCount_endSession, refundCallCount_endSession, endSession_state]
    norm_num [sessionA]
  · rw [endSessionTwiceEffects, sessionEndCount_append,
      sessionEndCount_endSession, sessionEndCount_endSession]

/-- C2: endSession settles from the consumedAmount stored by the last
periodic tick, not from a recomputation at the close time: with the last
tick at 3000 ms (stored consumedAmount = 3), a close at 5999 ms disburses
a refund of 7, although consumption recomputed at the true close timestamp
is 5 (so the refund mandated by the claim would be 5); the disbursed
amount does not depend on the close time at all. -/
theorem endSession_settles_from_stale_tick_value :
    disbursedRefund (endSession none 5999 sessionA_tick3000).2 = 7 ∧
    ((5999 - sessionA_tick3000.startTime) / 1000 : Int) = 5 ∧
    sessionA_tick3000.paidAmount -
        (((5999 - sessionA_tick3000.startTime) / 1000 : Int) : Rat) *
          sessionA_tick3000.pricePerSecond = 5 ∧
    (∀ t1 t2 : Int,
      disbursedRefund (endSession none t1 sessionA_tick3000).2 =
        disbursedRefund (endSession none t2 sessionA_tick3000).2) := by
  have hs : sessionA_tick3000.paidAmount = 10 ∧
      sessionA_tick3000.consumedAmount = 3 ∧
      sessionA_tick3000.startTime = 0 ∧
      sessionA_tick3000.pricePerSecond = 1 := by
    refine ⟨rfl, ?_, rfl, rfl⟩
    show ((3000 - sessionA.startTime) / 1000 : Int) * sessionA.pricePerSecond = 3
    norm_num [sessionA]
  refine ⟨?_, ?_, ?_, fun t1 t2 => ?_⟩
  · rw [disbursedRefund_endSession, hs.1, hs.2.1]
    norm_num
  · rw [hs.2.2.1]
    decide
  · rw [hs.1, hs.2.2.1, hs.2.2.2]
    norm_num
  · rw [disbursedRefund_endSession, disbursedRefund_endSession]

/-- C3: every tick recomputes elapsedSeconds as the floor of
(now - startTime) / 1000 and consumedAmount as elapsedSeconds times the
session price, from the absolute start time; the result is independent of
the previously stored consumedAmount and elapsedSeconds, so no
accumulation error can arise from delayed or skipped ticks. -/
theorem updateUsage_recomputes_from_absolute_start (cfg : ResolvedConfig)
    (now : Int) (s : WS402Session) :
    ((updateUsage cfg true now s).1.elapsedSeconds = (now - s.startTime) / 1000) ∧
    ((updateUsage cfg true now s).1.consumedAmount =
      ((updateUsage cfg true now s).1.elapsedSeconds : Rat) * s.pricePerSecond) ∧
    (∀ c : Rat, ∀ e : Int,
      (updateUsage cfg true now
          { s with consumedAmount := c, elapsedSeconds := e }).1 =
        (updateUsage cfg true now s).1) :=
  ⟨rfl, rfl, fun _ _ => rfl⟩

/-- C4 counterexample: a session can overrun its balance between ticks
(price 10/s, paid 10, tick at 2000 ms stores consumedAmount = 20); at
settlement no refund call is made, and the ended state violates the
conservation law paidAmount = consumedAmount + max 0 (paidAmount -
consumedAmount), since 10 is not 20 + 0. -/
theorem conservation_fails_on_overrun :
    endedB.status = SessionStatus.ended ∧
    refundCallCount
        (endSession none 2000 (updateUsage cfgDefault true 2000 sessionB).1).2 = 0 ∧
    ¬ (endedB.paidAmount = endedB.consumedAmount +
        max 0 (endedB.paidAmount - endedB.consumedAmount)) := by
  have hc : endedB.consumedAmount = 20 := by
    show (((2000 - sessionB.startTime) / 1000 : Int) : Rat) *
        sessionB.pricePerSecond = 20
    norm_num [sessionB]
  have hp : endedB.paidAmount = 10 := rfl
  refine ⟨rfl, ?_, ?_⟩
  · have hc' : ((updateUsage cfgDefault true 2000 sessionB).1).consumedAmount = 20 := hc
    have hp' : ((updateUsage cfgDefault true 2000 sessionB).1).paidAmount = 10 := hp
    rw [refundCallCount_endSession, hc', hp']
    norm_num
  · rw [hp, hc]
    norm_num

/-- C4 amended: in one settlement invocation the provider refund is called
at most once, exactly when paidAmount - consumedAmount is strictly
positive; the disbursed total equals max 0 (paidAmount - consumedAmount);
status becomes ended; and the conservation law paidAmount =
consumedAmount + refundAmount holds whenever the session has not overrun
its balance (consumedAmount ≤ paidAmount). -/
theorem endSession_refund_disbursement (s : WS402Session) (now : Int) :
    disbursedRefund (endSession none now s).2 =
      max 0 (s.paidAmount - s.consumedAmount) ∧
    refundCallCount (endSession none now s).2 ≤ 1 ∧
    (refundCallCount (endSession none now s).2 = 1 ↔
      0 < s.paidAmount - s.consumedAmount) ∧
    (endSession none now s).1.status = SessionStatus.ended ∧
    (s.consumedAmount ≤ s.paidAmount →
      s.paidAmount = s.consumedAmount +
        max 0 (s.paidAmount - s.consumedAmount)) := by
  refine ⟨disbursedRefund_endSession none now s, ?_, ?_, rfl, ?_⟩
  · rw [refundCallCount_endSession]
    split <;> norm_num
  · rw [refundCallCount_endSession]
    by_cases hlt : s.consumedAmount < s.paidAmount <;> simp [hlt, sub_pos]
  · intro hle
    rw [max_eq_right (by linarith : (0 : Rat) ≤ s.paidAmount - s.consumedAmount)]
    ring

/-- Witness for the amended C4 theorem at a concrete session. -/
theorem endSession_refund_disbursement_witness :
    disbursedRefund (endSession none 0 sessionA).2 =
      max 0 (sessionA.paidAmount - sessionA.consumedAmount) ∧
    sessionA.paidAmount = sessionA.consumedAmount +
      max 0 (sessionA.paidAmount - sessionA.consumedAmount) :=
  ⟨(endSession_refund_disbursement sessionA 0).1,
   (endSession_refund_disbursement sessionA 0).2.2.2.2 (by norm_num [sessionA])⟩

/-- The full effect trace of one open-socket tick, with both limit checks
explicit. -/
theorem updateUsage_trace (cfg : ResolvedConfig) (now : Int) (s : WS402Session) :
    (updateUsage cfg true now s).2 =
      Effect.send (ClientMsg.usage_update
        { sessionId := s.sessionId
          elapsedSeconds := (now - s.startTime) / 1000
          consumedAmount :=
            (((now - s.startTime) / 1000 : Int) : Rat) * s.pricePerSecond
          remainingBalance := s.paidAmount -
            (((now - s.startTime) / 1000 : Int) : Rat) * s.pricePerSecond
          bytesTransferred := s.bytesTransferred
          messageCount := s.messageCount }) ::
      ((if s.paidAmount -
            (((now - s.startTime) / 1000 : Int) : Rat) * s.pricePerSecond ≤ 0 then
          [Effect.send
            (ClientMsg.balance_exhausted "Prepaid balance has been fully consumed"),
           Effect.close 1000 "Balance exhausted"]
        else []) ++
       (if cfg.maxSessionDuration ≤ (now - s.startTime) / 1000 then
          [Effect.send
            (ClientMsg.max_duration_reached "Maximum session duration reached"),
           Effect.close 1000 "Max duration reached"]
        else [])) := rfl

/-- C5: on every open-socket tick both limit checks run: whenever the
recomputed remaining balance is ≤ 0 the trace contains the
balance_exhausted notice followed by a close with the normal-closure code
1000; independently, whenever the recomputed elapsed seconds reach
maxSessionDuration the trace contains the max_duration_reached notice
followed by a close with 1000; and when both conditions hold the
exhaustion pair comes first. -/
theorem updateUsage_limit_checks (cfg : ResolvedConfig) (now : Int)
    (s : WS402Session) :
    (s.paidAmount -
        (((now - s.startTime) / 1000 : Int) : Rat) * s.pricePerSecond ≤ 0 →
      List.Sublist
        [Effect.send
          (ClientMsg.balance_exhausted "Prepaid balance has been fully consumed"),
         Effect.close 1000 "Balance exhausted"]
        (updateUsage cfg true now s).2) ∧
    (cfg.maxSessionDuration ≤ (now - s.startTime) / 1000 →
      List.Sublist
        [Effect.send
          (ClientMsg.max_duration_reached "Maximum session duration reached"),
         Effect.close 1000 "Max duration reached"]
        (updateUsage cfg true now s).2) ∧
    (s.paidAmount -
        (((now - s.startTime) / 1000 : Int) : Rat) * s.pricePerSecond ≤ 0 →
      cfg.maxSessionDuration ≤ (now - s.startTime) / 1000 →
      List.Sublist
        [Effect.send
          (ClientMsg.balance_exhausted "Prepaid balance has been fully consumed"),
         Effect.close 1000 "Balance exhausted",
         Effect.send
          (ClientMsg.max_duration_reached "Maximum session duration reached"),
         Effect.close 1000 "Max duration reached"]
        (updateUsage cfg true now s).2) := by
  rw [updateUsage_trace]
  refine ⟨fun h1 => ?_, fun h2 => ?_, fun h1 h2 => ?_⟩
  · rw [if_pos h1]
    exact (List.sublist_append_left _ _).cons _
  · rw [if_pos h2]
    exact (List.sublist_append_right _ _).cons _
  · rw [if_pos h1, if_pos h2]
    exact (List.Sublist.refl _).cons _

/-- A resolved configuration with maxSessionDuration 2 seconds. -/
def cfgMax2 : ResolvedConfig :=
  resolveConfig
    { updateInterval := none
      pricePerSecond := none
      currency := none
      maxSessionDuration := some 2 }

/-- Witness for C5 with a tick where balance is exhausted and the maximum
duration is reached at the same time. -/
theorem updateUsage_limit_checks_witness :
    List.Sublist
      [Effect.send
        (ClientMsg.balance_exhausted "Prepaid balance has been fully consumed"),
       Effect.close 1000 "Balance exhausted",
       Effect.send
        (ClientMsg.max_duration_reached "Maximum session duration reached"),
       Effect.close 1000 "Max duration reached"]
      (updateUsage cfgMax2 true 2000 sessionB).2 :=
  (updateUsage_limit_checks cfgMax2 2000 sessionB).2.2
    (by norm_num [sessionB])
    (by norm_num [cfgMax2, resolveConfig, jsOrInt, sessionB])

/-- C6: when the provider refund call rejects, settlement emits
refund_error carrying the ended session and the error, does not re-raise
(the trace continues to completion), still fires the onSessionEnd hook and
the session_end event, and removes the session from the registry; neither
the refund event nor the onRefundIssued hook fires. -/
theorem endSession_refund_failure_still_finalizes (s : WS402Session)
    (now : Int) (err : String) (h : 0 < s.paidAmount - s.consumedAmount) :
    (endSession (some err) now s).1.status = SessionStatus.ended ∧
    (endSession (some err) now s).2 =
      [Effect.providerRefund s.paymentProof (s.paidAmount - s.consumedAmount),
       Effect.emitRefundError (endSession (some err) now s).1 err,
       Effect.hookOnSessionEnd (endSession (some err) now s).1,
       Effect.emitSessionEnd (endSession (some err) now s).1,
       Effect.registryDelete] := by
  have hlt : s.consumedAmount < s.paidAmount := sub_pos.mp h
  refine ⟨rfl, ?_⟩
  rw [endSession_state]
  simp [endSession, hlt]

/-- Witness for C6 at a concrete session with a positive remainder. -/
theorem endSession_refund_failure_still_finalizes_witness :
    (endSession (some "rpc down") 0 sessionA).1.status = SessionStatus.ended ∧
    (endSession (some "rpc down") 0 sessionA).2 =
      [Effect.providerRefund sessionA.paymentProof
        (sessionA.paidAmount - sessionA.consumedAmount),
       Effect.emitRefundError (endSession (some "rpc down") 0 sessionA).1 "rpc down",
       Effect.hookOnSessionEnd (endSession (some "rpc down") 0 sessionA).1,
       Effect.emitSessionEnd (endSession (some "rpc down") 0 sessionA).1,
       Effect.registryDelete] :=
  endSession_refund_failure_still_finalizes sessionA 0 "rpc down"
    (by norm_num [sessionA])

/-- C7: when verification returns valid=false, the client receives
payment_rejected carrying the verification's reason (with the default when
absent or empty), the socket is closed with the policy-violation code
1008, no session is created or registered, and no refund call occurs. -/
theorem handleVerification_rejects_invalid (cfg : ResolvedConfig)
    (userId sessionId : String) (now : Int) (pf : String)
    (v : PaymentVerification) (h : v.valid = false) :
    handleVerification cfg userId sessionId now pf v =
      (none,
       [Effect.send (ClientMsg.payment_rejected (jsOrStr v.reason "Invalid payment")),
        Effect.close 1008 "Payment verification failed"]) ∧
    registersSession (handleVerification cfg userId sessionId now pf v).2 = false ∧
    refundCallCount (handleVerification cfg userId sessionId now pf v).2 = 0 := by
  have he : handleVerification cfg userId sessionId now pf v =
      (none,
       [Effect.send (ClientMsg.payment_rejected (jsOrStr v.reason "Invalid payment")),
        Effect.close 1008 "Payment verification failed"]) := by
    simp [handleVerification, h]
  refine ⟨he, ?_, ?_⟩
  · rw [he]
    simp [registersSession]
  · rw [he]
    simp [refundCallCount]

/-- The rejection result of Scenario C: insufficient amount. -/
def verRejected : PaymentVerification :=
  { valid := false
    amount := 0
    reason := some "insufficient amount"
    pricePerSecond := none }

/-- Witness for C7 at the Scenario C verification result. -/
theorem handleVerification_rejects_invalid_witness :
    handleVerification cfgDefault "u" "sidW" 0 "pf" verRejected =
      (none,
       [Effect.send
          (ClientMsg.payment_rejected (jsOrStr verRejected.reason "Invalid payment")),
        Effect.close 1008 "Payment verification failed"]) ∧
    registersSession
      (handleVerification cfgDefault "u" "sidW" 0 "pf" verRejected).2 = false ∧
    refundCallCount
      (handleVerification cfgDefault "u" "sidW" 0 "pf" verRejected).2 = 0 :=
  handleVerification_rejects_invalid cfgDefault "u" "sidW" 0 "pf" verRejected rfl

/-- C8: when no payment_proof message arrives before the 30000 ms timeout,
the wait rejects with the payment-proof timeout error, the enclosing catch
emits that error and closes the socket with the abnormal code 1011, no
session is created or registered, and no refund call occurs. -/
theorem proof_timeout_creates_no_session (cfg : ResolvedConfig)
    (userId sessionId : String) (msgs : List (Int × InMsg))
    (verify : String → PaymentVerification) (now : Int)
    (h : ∀ m ∈ msgs, isProofBeforeTimeout m = false) :
    waitForPaymentProof msgs = Except.error "Payment proof timeout" ∧
    handleConnectionModel cfg userId sessionId msgs verify now =
      (none,
       [Effect.emitError "Payment proof timeout",
        Effect.close 1011 "Internal server error"]) ∧
    registersSession
      (handleConnectionModel cfg userId sessionId msgs verify now).2 = false ∧
    refundCallCount
      (handleConnectionModel cfg userId sessionId msgs verify now).2 = 0 := by
  have hf : msgs.find? isProofBeforeTimeout = none :=
    List.find?_eq_none.mpr (fun x hx => by simp [h x hx])
  have hw : waitForPaymentProof msgs = Except.error "Payment proof timeout" := by
    simp [waitForPaymentProof, hf]
  have hc : handleConnectionModel cfg userId sessionId msgs verify now =
      (none,
       [Effect.emitError "Payment proof timeout",
        Effect.close 1011 "Internal server error"]) := by
    simp [handleConnectionModel, hw]
  refine ⟨hw, hc, ?_, ?_⟩
  · rw [hc]
    simp [registersSession]
  · rw [hc]
    simp [refundCallCount]

/-- Witness for C8: one ignored message in time, one proof arriving after
the timeout. -/
theorem proof_timeout_creates_no_session_witness :
    waitForPaymentProof [(5000, InMsg.otherMsg), (40000, InMsg.proofMsg "late")] =
      Except.error "Payment proof timeout" ∧
    handleConnectionModel cfgDefault "u" "sidW"
        [(5000, InMsg.otherMsg), (40000, InMsg.proofMsg "late")]
        (fun _ => verRejected) 0 =
      (none,
       [Effect.emitError "Payment proof timeout",
        Effect.close 1011 "Internal server error"]) ∧
    registersSession
      (handleConnectionModel cfgDefault "u" "sidW"
        [(5000, InMsg.otherMsg), (40000, InMsg.proofMsg "late")]
        (fun _ => verRejected) 0).2 = false ∧
    refundCallCount
      (handleConnectionModel cfgDefault "u" "sidW"
        [(5000, InMsg.otherMsg), (40000, InMsg.proofMsg "late")]
        (fun _ => verRejected) 0).2 = 0 :=
  proof_timeout_creates_no_session cfgDefault "u" "sidW"
    [(5000, InMsg.otherMsg), (40000, InMsg.proofMsg "late")]
    (fun _ => verRejected) 0 (by decide)

/-- The inbound-data handler and the tick leave the identity and payment
fields of a session unchanged, and the counters never decrease under any
sequence of inbound messages. -/
theorem foldl_onMessage_fields (l : List Nat) (s : WS402Session) :
    (List.foldl onMessage s l).startTime = s.startTime ∧
    (List.foldl onMessage s l).paidAmount = s.paidAmount ∧
    (List.foldl onMessage s l).pricePerSecond = s.pricePerSecond ∧
    (List.foldl onMessage s l).sessionId = s.sessionId ∧
    s.bytesTransferred ≤ (List.foldl onMessage s l).bytesTransferred ∧
    s.messageCount ≤ (List.foldl onMessage s l).messageCount := by
  induction l generalizing s with
  | nil => simp
  | cons b bs ih =>
    have h := ih (onMessage s b)
    simp only [List.foldl_cons]
    refine ⟨h.1, h.2.1, h.2.2.1, h.2.2.2.1,
      le_trans ?_ h.2.2.2.2.1, le_trans ?_ h.2.2.2.2.2⟩
    · simp only [onMessage]
      omega
    · simp only [onMessage]
      omega

/-- C9: across two ticks at non-decreasing wall-clock times, with any
inbound messages between them, the reported remainingBalance never
increases, and the reported elapsedSeconds, bytesTransferred and
messageCount never decrease (for a nonnegative session price). -/
theorem tick_monotonicity (cfg : ResolvedConfig) (s : WS402Session)
    (t1 t2 : Int) (bytes : List Nat)
    (hp : 0 ≤ s.pricePerSecond) (ht : t1 ≤ t2) :
    ∃ u1 u2 : UsageUpdate,
      (updateUsage cfg true t1 s).2.head? =
        some (Effect.send (ClientMsg.usage_update u1)) ∧
      (updateUsage cfg true t2
          (List.foldl onMessage (updateUsage cfg true t1 s).1 bytes)).2.head? =
        some (Effect.send (ClientMsg.usage_update u2)) ∧
      u2.remainingBalance ≤ u1.remainingBalance ∧
      u1.elapsedSeconds ≤ u2.elapsedSeconds ∧
      u1.bytesTransferred ≤ u2.bytesTransferred ∧
      u1.messageCount ≤ u2.messageCount := by
  obtain ⟨hst, hpa, hpr, hsid, hby, hmc⟩ :=
    foldl_onMessage_fields bytes (updateUsage cfg true t1 s).1
  have hst' : (List.foldl onMessage (updateUsage cfg true t1 s).1 bytes).startTime =
      s.startTime := hst
  have hpa' : (List.foldl onMessage (updateUsage cfg true t1 s).1 bytes).paidAmount =
      s.paidAmount := hpa
  have hpr' :
      (List.foldl onMessage (updateUsage cfg true t1 s).1 bytes).pricePerSecond =
      s.pricePerSecond := hpr
  have hby' : s.bytesTransferred ≤
      (List.foldl onMessage (updateUsage cfg true t1 s).1 bytes).bytesTransferred :=
    hby
  have hmc' : s.messageCount ≤
      (List.foldl onMessage (updateUsage cfg true t1 s).1 bytes).messageCount := hmc
  have he : ((t1 - s.startTime) / 1000 : Int) ≤ (t2 - s.startTime) / 1000 :=
    Int.ediv_le_ediv (by norm_num) (by linarith)
  have hcons : (((t1 - s.startTime) / 1000 : Int) : Rat) * s.pricePerSecond ≤
      (((t2 - s.startTime) / 1000 : Int) : Rat) * s.pricePerSecond :=
    mul_le_mul_of_nonneg_right (by exact_mod_cast he) hp
  refine ⟨_, _, by rw [updateUsage_trace]; rfl, by rw [updateUsage_trace]; rfl,
    ?_, ?_, ?_, ?_⟩
  · show (List.foldl onMessage (updateUsage cfg true t1 s).1 bytes).paidAmount -
        (((t2 - (List.foldl onMessage (updateUsage cfg true t1 s).1
            bytes).startTime) / 1000 : Int) : Rat) *
          (List.foldl onMessage (updateUsage cfg true t1 s).1 bytes).pricePerSecond ≤
      s.paidAmount - (((t1 - s.startTime) / 1000 : Int) : Rat) * s.pricePerSecond
    rw [hst', hpa', hpr']
    linarith
  · show ((t1 - s.startTime) / 1000 : Int) ≤
      (t2 - (List.foldl onMessage (updateUsage cfg true t1 s).1
        bytes).startTime) / 1000
    rw [hst']
    exact he
  · exact hby'
  · exact hmc'

/-- Witness for C9 under the default config with one message between the
ticks at 1000 ms and 2000 ms. -/
theorem tick_monotonicity_witness :
    ∃ u1 u2 : UsageUpdate,
      (updateUsage cfgDefault true 1000 sessionA).2.head? =
        some (Effect.send (ClientMsg.usage_update u1)) ∧
      (updateUsage cfgDefault true 2000
          (List.foldl onMessage (updateUsage cfgDefault true 1000 sessionA).1
            [5])).2.head? =
        some (Effect.send (ClientMsg.usage_update u2)) ∧
      u2.remainingBalance ≤ u1.remainingBalance ∧
      u1.elapsedSeconds ≤ u2.elapsedSeconds ∧
      u1.bytesTransferred ≤ u2.bytesTransferred ∧
      u1.messageCount ≤ u2.messageCount :=
  tick_monotonicity cfgDefault sessionA 1000 2000 [5]
    (by norm_num [sessionA]) (by norm_num)

/-- C10: the session created after successful verification always carries
the server's configured pricePerSecond; the optional pricePerSecond of the
verification result is never consulted (replacing it changes nothing),
and the unconfigured default resolves to 1. -/
theorem session_price_from_config_only (cfg : ResolvedConfig)
    (userId sessionId : String) (now : Int) (pf : String)
    (v : PaymentVerification) (o : Option Rat) (h : v.valid = true) :
    ((handleVerification cfg userId sessionId now pf v).1).map
        WS402Session.pricePerSecond = some cfg.pricePerSecond ∧
    handleVerification cfg userId sessionId now pf
        { v with pricePerSecond := o } =
      handleVerification cfg userId sessionId now pf v ∧
    cfgDefault.pricePerSecond = 1 := by
  refine ⟨?_, rfl, rfl⟩
  simp [handleVerification, h]

/-- A verification result carrying a resource-specific price override. -/
def verValid : PaymentVerification :=
  { valid := true
    amount := 3000
    reason := none
    pricePerSecond := some 99 }

/-- Witness for C10: the override 99 in the verification result and a
replacement 5 both leave the created session at the config price 1. -/
theorem session_price_from_config_only_witness :
    ((handleVerification cfgDefault "u" "sidW" 0 "pf" verValid).1).map
        WS402Session.pricePerSecond = some cfgDefault.pricePerSecond ∧
    handleVerification cfgDefault "u" "sidW" 0 "pf"
        { verValid with pricePerSecond := some 5 } =
      handleVerification cfgDefault "u" "sidW" 0 "pf" verValid ∧
    cfgDefault.pricePerSecond = 1 :=
  session_price_from_config_only cfgDefault "u" "sidW" 0 "pf" verValid
    (some 5) rfl

end WS402
